import Mathlib

/-!
Shallow embedding of `pkg/render/dex.go` from the `operator` repository:
the Dex declarative resource-set renderer. Pure Go code is translated to
executable Lean definitions; Kubernetes API structures are modelled as Lean
structures carrying exactly the fields the renderer writes. Helper functions
of the repository that live outside the provided source file (the secret
replication helpers, the CSR init-container builder, shared package-level
constants) are modelled from the specification and marked as such in their
doc comments.
-/

namespace DexRender

/-- Byte strings of secret values (opaque payloads). -/
abbrev Bytes := List Nat

/-- A Kubernetes Secret as the renderer sees it: name, namespace, data map. -/
structure SecretObj where
  name : String
  nsp : String
  data : List (String × Bytes)
deriving DecidableEq, Repr

/-- An environment variable (corev1.EnvVar, name/value part). -/
structure EnvVar where
  name : String
  value : String
deriving DecidableEq, Repr

/-- Volumes supplied opaquely by the identity-provider collaborator. -/
abbrev Volume := String

/-- Volume mounts supplied opaquely by the identity-provider collaborator. -/
abbrev VolumeMount := String

/-- A pod toleration (corev1.Toleration fields used here). -/
structure Toleration where
  key : String
  opr : String
  value : String
  effect : String
deriving DecidableEq, Repr

/-- Certificate-management descriptor (oprv1.CertificateManagement): present
iff certificate-management mode is enabled. -/
structure CertificateManagement where
  caCert : Bytes
  signerName : String
deriving DecidableEq, Repr

/-- The installation spec fields read by this renderer
(oprv1.InstallationSpec). -/
structure InstallationSpec where
  registry : String
  imagePath : String
  certificateManagement : Option CertificateManagement
  controlPlaneNodeSelector : List (String × String)
  controlPlaneTolerations : List Toleration
deriving DecidableEq, Repr

/-- Untyped nested YAML-like document values (map[string]interface values
used by `configMap`). -/
inductive Yaml where
  | str : String → Yaml
  | bool : Bool → Yaml
  | seq : List Yaml → Yaml
  | map : List (String × Yaml) → Yaml
deriving Repr

mutual

/-- Total serializer for the document tree (yaml.Marshal): every value of
the `Yaml` ADT is structurally serializable, so serialization cannot fail. -/
def yamlMarshal : Yaml → String
  | Yaml.str s => s
  | Yaml.bool b => if b then "true" else "false"
  | Yaml.seq xs => "[" ++ yamlMarshalSeq xs ++ "]"
  | Yaml.map m => "\x7b" ++ yamlMarshalMap m ++ "\x7d"

/-- Serialize a sequence of document values. -/
def yamlMarshalSeq : List Yaml → String
  | [] => ""
  | [x] => yamlMarshal x
  | x :: xs => yamlMarshal x ++ "," ++ yamlMarshalSeq xs

/-- Serialize the entries of a document mapping. -/
def yamlMarshalMap : List (String × Yaml) → String
  | [] => ""
  | [(k, v)] => k ++ ":" ++ yamlMarshal v
  | (k, v) :: m => k ++ ":" ++ yamlMarshal v ++ "," ++ yamlMarshalMap m

end

/-- The identity-provider collaborator (DexConfig), modelled by the values
its capability methods return: `Connector()`, `RequiredSecrets(ns)`,
`CreateCertSecret()`, `RequiredAnnotations()`, `RequiredEnv(prefix)`,
`RequiredVolumes()/RequiredVolumeMounts()`, `ManagerURI()`. -/
structure DexConfig where
  connector : List (String × Yaml)
  requiredSecrets : String → List SecretObj
  createCertSecret : SecretObj
  requiredAnnots : List (String × String)
  requiredEnv : String → List EnvVar
  requiredVolumes : List Volume
  requiredVolumeMounts : List VolumeMount
  managerURI : String

/-- metav1.TypeMeta. -/
structure TypeMeta where
  kind : String
  apiVersion : String
deriving DecidableEq, Repr

/-- metav1.ObjectMeta fields written by this renderer. -/
structure ObjectMeta where
  name : String
  nsp : String
  labels : List (String × String)
  annots : List (String × String)
deriving DecidableEq, Repr

/-- corev1.ServiceAccount. -/
structure ServiceAccount where
  typeMeta : TypeMeta
  objectMeta : ObjectMeta
deriving DecidableEq, Repr

/-- rbacv1.PolicyRule. -/
structure PolicyRule where
  apiGroups : List String
  resources : List String
  verbs : List String
deriving DecidableEq, Repr

/-- rbacv1.ClusterRole. -/
structure ClusterRole where
  typeMeta : TypeMeta
  objectMeta : ObjectMeta
  rules : List PolicyRule
deriving DecidableEq, Repr

/-- rbacv1.RoleRef. -/
structure RoleRef where
  apiGroup : String
  kind : String
  name : String
deriving DecidableEq, Repr

/-- rbacv1.Subject. -/
structure Subject where
  kind : String
  name : String
  nsp : String
deriving DecidableEq, Repr

/-- rbacv1.ClusterRoleBinding. -/
structure ClusterRoleBinding where
  typeMeta : TypeMeta
  objectMeta : ObjectMeta
  roleRef : RoleRef
  subjects : List Subject
deriving DecidableEq, Repr

/-- corev1.ContainerPort (name and numeric port). -/
structure ContainerPort where
  name : String
  containerPort : Nat
deriving DecidableEq, Repr

/-- corev1.Probe with an HTTPGet handler, as built by `probe()`. -/
structure Probe where
  path : String
  port : Nat
  scheme : String
  initialDelaySeconds : Nat
  periodSeconds : Nat
deriving DecidableEq, Repr

/-- The fixed base pod security context (podsecuritycontext.NewBaseContext):
a constant value independent of renderer state. -/
structure SecurityCtx where
  base : Unit
deriving DecidableEq, Repr

/-- corev1.Container fields written by this renderer. -/
structure Container where
  name : String
  image : String
  env : List EnvVar
  livenessProbe : Option Probe
  securityContext : SecurityCtx
  command : List String
  ports : List ContainerPort
  volumeMounts : List VolumeMount
deriving DecidableEq, Repr

/-- corev1.PodSpec fields written by this renderer; image pull secrets are
kept as the referenced secret names. -/
structure PodSpec where
  nodeSelector : List (String × String)
  serviceAccountName : String
  tolerations : List Toleration
  imagePullSecrets : List String
  initContainers : List Container
  containers : List Container
  volumes : List Volume
deriving DecidableEq, Repr

/-- corev1.PodTemplateSpec. -/
structure PodTemplateSpec where
  objectMeta : ObjectMeta
  spec : PodSpec
deriving DecidableEq, Repr

/-- appsv1.DeploymentSpec fields written by this renderer; the selector is
kept as its match-labels list and the strategy as its type tag. -/
structure DeploymentSpec where
  selector : List (String × String)
  replicas : Int
  strategyType : String
  template : PodTemplateSpec
deriving DecidableEq, Repr

/-- appsv1.Deployment. -/
structure Deployment where
  typeMeta : TypeMeta
  objectMeta : ObjectMeta
  spec : DeploymentSpec
deriving DecidableEq, Repr

/-- corev1.ServicePort (target port kept as its integer value). -/
structure ServicePort where
  name : String
  port : Nat
  targetPort : Nat
  protocol : String
deriving DecidableEq, Repr

/-- corev1.ServiceSpec fields written by this renderer. -/
structure ServiceSpec where
  selector : List (String × String)
  ports : List ServicePort
deriving DecidableEq, Repr

/-- corev1.Service. -/
structure Service where
  typeMeta : TypeMeta
  objectMeta : ObjectMeta
  spec : ServiceSpec
deriving DecidableEq, Repr

/-- corev1.ConfigMap. -/
structure ConfigMap where
  typeMeta : TypeMeta
  objectMeta : ObjectMeta
  data : List (String × String)
deriving DecidableEq, Repr

/-- client.Object: the tagged union of object kinds this renderer emits. -/
inductive K8sObject where
  | serviceAccount : ServiceAccount → K8sObject
  | clusterRole : ClusterRole → K8sObject
  | clusterRoleBinding : ClusterRoleBinding → K8sObject
  | deployment : Deployment → K8sObject
  | service : Service → K8sObject
  | configMap : ConfigMap → K8sObject
  | secret : SecretObj → K8sObject
deriving DecidableEq, Repr

/-! Constants from the top of `dex.go`. -/

def DexNamespace : String := "tigera-dex"

def DexObjectName : String := "tigera-dex"

def DexPort : Nat := 5556

def DexClientId : String := "tigera-manager"

/-- Kubernetes API constant corev1.TLSPrivateKeyKey. -/
def tlsPrivateKeyKey : String := "tls.key"

/-- Kubernetes API constant corev1.TLSCertKey. -/
def tlsCertKey : String := "tls.crt"

/-- Modelled from the spec: `rmeta.OperatorNamespace()`, the namespace the
controlling reconciliation process runs in (not in the provided source). -/
def operatorNamespace : String := "tigera-operator"

/-- Modelled from the spec: the shared replica-count package-level variable
referenced by the deployment (a process-wide default, not in the provided
source). -/
def replicas : Int := 1

/-- Modelled from the spec: `dexSecretEnv`, the shared-secret
environment-variable reference used in the static client registration (not
in the provided source). -/
def dexSecretEnv : String := "$DEX_SECRET"

/-- Modelled from the spec: `rmeta.TolerateMaster`, the single fixed
tolerate-master toleration appended to every rendered pod spec (not in the
provided source; only its fixed-constant nature is relied on). -/
def tolerateMaster : Toleration :=
  { key := "node-role.kubernetes.io/master"
    opr := "Exists"
    value := ""
    effect := "NoSchedule" }

/-- Modelled from the spec: `secret.ToRuntimeObjects`, converting a sequence
of Secrets into emittable objects (not in the provided source). -/
def toRuntimeObjects (secrets : List SecretObj) : List K8sObject :=
  secrets.map K8sObject.secret

/-- Modelled from the spec: `secret.CopyToNamespace` copies each Secret into
the target namespace, producing fresh values carrying the original data and
the new namespace, never aliasing or mutating the originals (not in the
provided source). -/
def copyToNamespace (nsp : String) (secrets : List SecretObj) : List SecretObj :=
  secrets.map (fun s => { s with nsp := nsp })

/-- Modelled from the spec: `secret.GetReferenceList` — the pod spec
references all pull secrets by name (not in the provided source). -/
def getReferenceList (secrets : List SecretObj) : List String :=
  secrets.map (fun s => s.name)

/-- Modelled from the spec: `dns.GetServiceDNSNames` computes the DNS names
a certificate must cover: service short name + namespace + cluster domain
(not in the provided source). -/
def getServiceDNSNames (name nsp clusterDomain : String) : List String :=
  [name, name ++ "." ++ nsp, name ++ "." ++ nsp ++ ".svc",
   name ++ "." ++ nsp ++ ".svc." ++ clusterDomain]

/-- Modelled from the spec: `CreateCSRInitContainer` builds the bootstrap
init container, parameterized by the certificate-management descriptor, the
bootstrap image, a fixed secret volume name, fixed private-key/certificate
file keys, the computed DNS names, and the target namespace (not in the
provided source). -/
def createCSRInitContainer (cm : CertificateManagement) (img : String)
    (mountName : String) (commonName : String) (keyName : String)
    (certName : String) (dnsNames : List String) (nsp : String) : Container :=
  { name := mountName ++ "-key-cert-provisioner"
    image := img
    env := [⟨"SECRET_LOCATION", nsp⟩, ⟨"SIGNER", cm.signerName⟩,
            ⟨"COMMON_NAME", commonName⟩, ⟨"KEY_NAME", keyName⟩,
            ⟨"CERT_NAME", certName⟩,
            ⟨"DNS_NAMES", String.intercalate "," dnsNames⟩]
    livenessProbe := none
    securityContext := ⟨()⟩
    command := []
    ports := []
    volumeMounts := [] }

/-- Modelled from the spec: `csrClusterRoleBinding` builds the
certificate-signing-request cluster-role-binding appended iff
certificate-management mode is enabled (not in the provided source). -/
def csrClusterRoleBinding (name nsp : String) : ClusterRoleBinding :=
  { typeMeta := ⟨"ClusterRoleBinding", "rbac.authorization.k8s.io/v1"⟩
    objectMeta := ⟨name ++ ":csr-creator", "", [], []⟩
    roleRef := ⟨"rbac.authorization.k8s.io", "ClusterRole", "csr-creator"⟩
    subjects := [⟨"ServiceAccount", name, nsp⟩] }

/-- The renderer state (`dexComponent` struct). -/
structure DexComponent where
  dexConfig : DexConfig
  pullSecrets : List SecretObj
  openshift : Bool
  installation : InstallationSpec
  connector : List (String × Yaml)
  image : String
  csrInitImage : String
  clusterDomain : String

/-- The constructor `Dex(...)`: configures the renderer; the image fields
start as the Go zero value (empty string) until `ResolveImages` runs. -/
def Dex (pullSecrets : List SecretObj) (openshift : Bool)
    (installation : InstallationSpec) (dexConfig : DexConfig)
    (clusterDomain : String) : DexComponent :=
  { dexConfig := dexConfig
    pullSecrets := pullSecrets
    openshift := openshift
    installation := installation
    connector := dexConfig.connector
    image := ""
    csrInitImage := ""
    clusterDomain := "" ++ clusterDomain }

/-- Outcome oracle for the two external image lookups performed by
`ResolveImages`: `components.GetReference(ComponentDex, ...)` and
`ResolveCSRInitImage(...)` are repository code outside the provided source,
so each attempted lookup's result is supplied as a value. -/
structure ImageResolver where
  getReferenceDex : Except String String
  getReferenceCSRInit : Except String String

/-- Whether an external lookup failed. -/
def isErr (e : Except String String) : Bool :=
  match e with
  | Except.ok _ => false
  | Except.error _ => true

/-- `ResolveImages`: stores the main image, attempts the CSR bootstrap image
lookup iff certificate management is enabled (regardless of the first
outcome), collects every failure message, and returns them joined with ","
as one error, or no error when nothing failed. -/
def ResolveImages (r : ImageResolver) (c : DexComponent) :
    DexComponent × Option String :=
  let p1 : String × List String :=
    match r.getReferenceDex with
    | Except.ok s => (s, [])
    | Except.error e => ("", [e])
  let c1 : DexComponent := { c with image := p1.1 }
  let p2 : DexComponent × List String :=
    match c.installation.certificateManagement with
    | some _ =>
      match r.getReferenceCSRInit with
      | Except.ok s => ({ c1 with csrInitImage := s }, p1.2)
      | Except.error e => ({ c1 with csrInitImage := "" }, p1.2 ++ [e])
    | none => (c1, p1.2)
  if p2.2 = [] then (p2.1, none)
  else (p2.1, some (String.intercalate "," p2.2))

/-- `serviceAccount()`. -/
def DexComponent.serviceAccount (_c : DexComponent) : ServiceAccount :=
  { typeMeta := ⟨"ServiceAccount", "v1"⟩
    objectMeta := ⟨DexObjectName, DexNamespace, [], []⟩ }

/-- `clusterRole()`. -/
def DexComponent.clusterRole (_c : DexComponent) : ClusterRole :=
  { typeMeta := ⟨"ClusterRole", "rbac.authorization.k8s.io/v1"⟩
    objectMeta := ⟨DexObjectName, "", [], []⟩
    rules := [⟨["dex.coreos.com"], ["*"], ["*"]⟩,
              ⟨["apiextensions.k8s.io"], ["customresourcedefinitions"],
               ["create"]⟩] }

/-- `clusterRoleBinding()`. -/
def DexComponent.clusterRoleBinding (_c : DexComponent) : ClusterRoleBinding :=
  { typeMeta := ⟨"ClusterRoleBinding", "rbac.authorization.k8s.io/v1"⟩
    objectMeta := ⟨DexObjectName, "", [], []⟩
    roleRef := ⟨"rbac.authorization.k8s.io", "ClusterRole", DexObjectName⟩
    subjects := [⟨"ServiceAccount", DexObjectName, DexNamespace⟩] }

/-- `probe()`: HTTPS liveness check of the fixed discovery endpoint. -/
def DexComponent.probe (_c : DexComponent) : Probe :=
  { path := "/dex/.well-known/openid-configuration"
    port := DexPort
    scheme := "HTTPS"
    initialDelaySeconds := 90
    periodSeconds := 10 }

/-- `deployment()`: the workload object; prepends the CSR bootstrap init
container iff certificate management is enabled. -/
def DexComponent.deployment (c : DexComponent) : Deployment :=
  let initContainers : List Container :=
    match c.installation.certificateManagement with
    | some cm =>
      [createCSRInitContainer cm c.csrInitImage "tls" DexObjectName
        tlsPrivateKeyKey tlsCertKey
        (getServiceDNSNames DexObjectName DexNamespace c.clusterDomain)
        DexNamespace]
    | none => []
  { typeMeta := ⟨"Deployment", "apps/v1"⟩
    objectMeta := ⟨DexObjectName, DexNamespace, [("k8s-app", DexObjectName)], []⟩
    spec :=
      { selector := [("k8s-app", DexObjectName)]
        replicas := replicas
        strategyType := "Recreate"
        template :=
          { objectMeta := ⟨DexObjectName, DexNamespace,
              [("k8s-app", DexObjectName)], c.dexConfig.requiredAnnots⟩
            spec :=
              { nodeSelector := c.installation.controlPlaneNodeSelector
                serviceAccountName := DexObjectName
                tolerations :=
                  c.installation.controlPlaneTolerations ++ [tolerateMaster]
                imagePullSecrets := getReferenceList c.pullSecrets
                initContainers := initContainers
                containers :=
                  [{ name := DexObjectName
                     image := c.image
                     env := c.dexConfig.requiredEnv ""
                     livenessProbe := some c.probe
                     securityContext := ⟨()⟩
                     command := ["/usr/local/bin/dex", "serve",
                                 "/etc/dex/baseCfg/config.yaml"]
                     ports := [⟨"https", DexPort⟩]
                     volumeMounts := c.dexConfig.requiredVolumeMounts }]
                volumes := c.dexConfig.requiredVolumes } } } }

/-- `service()`: the network service with its single TCP port. -/
def DexComponent.service (_c : DexComponent) : Service :=
  { typeMeta := ⟨"Service", "v1"⟩
    objectMeta := ⟨DexObjectName, DexNamespace, [], []⟩
    spec :=
      { selector := [("k8s-app", DexObjectName)]
        ports := [{ name := DexObjectName
                    port := DexPort
                    targetPort := DexPort
                    protocol := "TCP" }] } }

/-- Substring containment, `strings.Contains`. -/
def strContainsSub (s pat : String) : Bool :=
  (List.range (s.toList.length + 1)).any
    (fun i => pat.toList.isPrefixOf (s.toList.drop i))

/-- The redirect-URI list of the static client: four fixed loopback
callbacks, plus two callbacks derived from the manager URI when it is
non-empty and contains neither "localhost" nor "127.0.0.1". -/
def dexRedirectURIs (host : String) : List String :=
  let base := ["https://localhost:9443/login/oidc/callback",
               "https://127.0.0.1:9443/login/oidc/callback",
               "https://localhost:9443/tigera-kibana/api/security/oidc/callback",
               "https://127.0.0.1:9443/tigera-kibana/api/security/oidc/callback"]
  if host != "" && !(strContainsSub host "localhost")
      && !(strContainsSub host "127.0.0.1") then
    base ++ [host ++ "/login/oidc/callback",
             host ++ "/tigera-kibana/api/security/oidc/callback"]
  else base

/-- The nested configuration document built inside `configMap()`. -/
def DexComponent.dexConfigData (c : DexComponent) : Yaml :=
  Yaml.map
    [("issuer", Yaml.str (c.dexConfig.managerURI ++ "/dex")),
     ("storage", Yaml.map
        [("type", Yaml.str "kubernetes"),
         ("config", Yaml.map [("inCluster", Yaml.bool true)])]),
     ("web", Yaml.map
        [("https", Yaml.str "0.0.0.0:5556"),
         ("tlsCert", Yaml.str "/etc/dex/tls/tls.crt"),
         ("tlsKey", Yaml.str "/etc/dex/tls/tls.key"),
         ("allowedOrigins", Yaml.seq [Yaml.str "*"]),
         ("discoveryAllowedOrigins", Yaml.seq [Yaml.str "*"])]),
     ("connectors", Yaml.seq [Yaml.map c.connector]),
     ("oauth2", Yaml.map
        [("skipApprovalScreen", Yaml.bool true),
         ("responseTypes", Yaml.seq
            [Yaml.str "id_token", Yaml.str "code", Yaml.str "token"])]),
     ("staticClients", Yaml.seq
        [Yaml.map
           [("id", Yaml.str DexClientId),
            ("redirectURIs", Yaml.seq
               ((dexRedirectURIs c.dexConfig.managerURI).map Yaml.str)),
            ("name", Yaml.str "Calico Enterprise Manager"),
            ("secretEnv", Yaml.str dexSecretEnv)]])]

/-- `configMap()`: serializes the document; serialization is total over the
document ADT, so the panic branch of the source is unreachable. -/
def DexComponent.configMap (c : DexComponent) : ConfigMap :=
  { typeMeta := ⟨"ConfigMap", "v1"⟩
    objectMeta := ⟨DexObjectName, DexNamespace, [], []⟩
    data := [("config.yaml", yamlMarshal c.dexConfigData)] }

/-- `Objects()`: the ordered creation list and the (always empty) deletion
list. -/
def DexComponent.Objects (c : DexComponent) :
    List K8sObject × List K8sObject :=
  let objs : List K8sObject :=
    [K8sObject.serviceAccount c.serviceAccount,
     K8sObject.deployment c.deployment,
     K8sObject.service c.service,
     K8sObject.clusterRole c.clusterRole,
     K8sObject.clusterRoleBinding c.clusterRoleBinding,
     K8sObject.configMap c.configMap]
  let objs := objs ++ toRuntimeObjects (c.dexConfig.requiredSecrets operatorNamespace)
  let objs := objs ++ [K8sObject.secret c.dexConfig.createCertSecret]
  let objs := objs ++ toRuntimeObjects (c.dexConfig.requiredSecrets DexNamespace)
  let objs := objs ++ toRuntimeObjects (copyToNamespace DexNamespace c.pullSecrets)
  let objs :=
    match c.installation.certificateManagement with
    | some _ =>
      objs ++ [K8sObject.clusterRoleBinding
                 (csrClusterRoleBinding DexObjectName DexNamespace)]
    | none => objs
  (objs, [])

/-- `Ready()`. -/
def DexComponent.Ready (_c : DexComponent) : Bool := true

/-- Lookup of a key in a document mapping. -/
def yamlLookup (m : List (String × Yaml)) (k : String) : Option Yaml :=
  match m with
  | [] => none
  | (k2, v) :: rest => if k2 = k then some v else yamlLookup rest k

/-- Extract the redirect-URI value of the single static client from a
configuration document. -/
def staticClientRedirects (d : Yaml) : Option Yaml :=
  match d with
  | Yaml.map m =>
    match yamlLookup m "staticClients" with
    | some (Yaml.seq [Yaml.map sc]) => yamlLookup sc "redirectURIs"
    | _ => none
  | _ => none

/-- Replace the init-container list of every deployment object, leaving all
other objects untouched (used to state the certificate-management frame
property). -/
def withInitContainers (ics : List Container) : K8sObject → K8sObject
  | K8sObject.deployment d =>
    K8sObject.deployment
      { d with spec :=
          { d.spec with template :=
              { d.spec.template with spec :=
                  { d.spec.template.spec with initContainers := ics } } } }
  | o => o

/-- A minimal identity-provider stub: empty connector, no required secrets,
env, volumes or mounts, empty manager URI. -/
def cfgW : DexConfig :=
  { connector := []
    requiredSecrets := fun _ => []
    createCertSecret := ⟨"tigera-dex-tls-crt", "tigera-operator", [("tls.crt", [1, 2, 3])]⟩
    requiredAnnots := []
    requiredEnv := fun _ => []
    requiredVolumes := []
    requiredVolumeMounts := []
    managerURI := "" }

/-- An installation spec with certificate management disabled. -/
def instW : InstallationSpec :=
  { registry := ""
    imagePath := ""
    certificateManagement := none
    controlPlaneNodeSelector := []
    controlPlaneTolerations := [] }

/-- A concrete certificate-management descriptor. -/
def cmW : CertificateManagement :=
  { caCert := [4, 5], signerName := "example.com/signer" }

/-- A concrete minimal renderer: certificate management disabled, zero pull
secrets, minimal identity-provider stub. -/
def cW0 : DexComponent := Dex [] false instW cfgW "cluster.local"

/-- A concrete renderer with one pull secret living in the operator
namespace. -/
def cW1 : DexComponent :=
  Dex [⟨"pull-secret", "tigera-operator", [("cfg", [9])]⟩] false instW cfgW
    "cluster.local"

/-- A concrete renderer with certificate management enabled. -/
def cWcm : DexComponent :=
  Dex [] false { instW with certificateManagement := some cmW } cfgW
    "cluster.local"

/-- A resolver oracle failing both lookups. -/
def rW : ImageResolver :=
  { getReferenceDex := Except.error "no dex image"
    getReferenceCSRInit := Except.error "no csr image" }

/-- A resolver oracle failing the main lookup but resolving the bootstrap
image. -/
def rW2 : ImageResolver :=
  { getReferenceDex := Except.error "no dex image"
    getReferenceCSRInit := Except.ok "csr-img" }

/-- The branch structure of the redirect-URI list, stated from the claim's
side of the condition. -/
theorem dexRedirectURIs_spec (host : String) :
    dexRedirectURIs host =
      (if host == "" || strContainsSub host "localhost"
          || strContainsSub host "127.0.0.1" then
        ["https://localhost:9443/login/oidc/callback",
         "https://127.0.0.1:9443/login/oidc/callback",
         "https://localhost:9443/tigera-kibana/api/security/oidc/callback",
         "https://127.0.0.1:9443/tigera-kibana/api/security/oidc/callback"]
      else
        ["https://localhost:9443/login/oidc/callback",
         "https://127.0.0.1:9443/login/oidc/callback",
         "https://localhost:9443/tigera-kibana/api/security/oidc/callback",
         "https://127.0.0.1:9443/tigera-kibana/api/security/oidc/callback",
         host ++ "/login/oidc/callback",
         host ++ "/tigera-kibana/api/security/oidc/callback"]) := by
  unfold dexRedirectURIs
  by_cases he : host = "" <;>
    cases hl : strContainsSub host "localhost" <;>
      cases hp : strContainsSub host "127.0.0.1" <;>
        simp [he, hl, hp]

/-- `toRuntimeObjects` only produces secret objects, which
`withInitContainers` leaves untouched. -/
theorem toRuntimeObjects_map_withInit (ics : List Container)
    (xs : List SecretObj) :
    (toRuntimeObjects xs).map (withInitContainers ics) = toRuntimeObjects xs := by
  simp only [toRuntimeObjects, List.map_map]
  rfl

/-- C1. The claim's count is refuted by the code: for the minimal
configuration (certificate management disabled, zero pull secrets,
identity-provider stub returning empty sequences) the creation list has 7
entries, not 6 — the identity provider's certificate secret is always
appended after the six fixed objects. -/
theorem dex_objects_minimal_count_ne_six :
    (cW0.Objects).1.length = 7 ∧ ¬ (cW0.Objects).1.length = 6 := by
  have h7 : (cW0.Objects).1.length = 7 := by
    simp [cW0, Dex, cfgW, instW, DexComponent.Objects, toRuntimeObjects,
      copyToNamespace]
  exact ⟨h7, by omega⟩

/-- C1 (amended). For a configuration with certificate management disabled,
zero pull secrets, and an identity-provider collaborator whose
RequiredSecrets calls return empty sequences, Objects() returns a creation
list with exactly 7 entries, in the fixed order: service account, workload
(Deployment), network service, cluster role, cluster role binding,
configuration document, certificate secret. -/
theorem dex_objects_minimal_order (c : DexComponent)
    (h1 : c.installation.certificateManagement = none)
    (h2 : c.pullSecrets = [])
    (h3 : c.dexConfig.requiredSecrets operatorNamespace = [])
    (h4 : c.dexConfig.requiredSecrets DexNamespace = []) :
    (c.Objects).1 =
      [K8sObject.serviceAccount c.serviceAccount,
       K8sObject.deployment c.deployment,
       K8sObject.service c.service,
       K8sObject.clusterRole c.clusterRole,
       K8sObject.clusterRoleBinding c.clusterRoleBinding,
       K8sObject.configMap c.configMap,
       K8sObject.secret c.dexConfig.createCertSecret] := by
  simp [DexComponent.Objects, h1, h2, h3, h4, toRuntimeObjects, copyToNamespace]

/-- C1 witness: the amended order theorem applied to the concrete minimal
renderer. -/
theorem dex_objects_minimal_order_witness :
    (cW0.Objects).1 =
      [K8sObject.serviceAccount cW0.serviceAccount,
       K8sObject.deployment cW0.deployment,
       K8sObject.service cW0.service,
       K8sObject.clusterRole cW0.clusterRole,
       K8sObject.clusterRoleBinding cW0.clusterRoleBinding,
       K8sObject.configMap cW0.configMap,
       K8sObject.secret cW0.dexConfig.createCertSecret] :=
  dex_objects_minimal_order cW0 rfl rfl rfl rfl

/-- C2. The static client's redirect-URI list in the configuration document
is exactly the four fixed loopback callbacks when the manager URI is empty
or contains "localhost" or "127.0.0.1", and otherwise those four followed
by the manager URI's login and kibana callbacks. -/
theorem dex_config_redirect_uris (c : DexComponent) :
    staticClientRedirects c.dexConfigData =
      some (Yaml.seq
        ((if c.dexConfig.managerURI == ""
             || strContainsSub c.dexConfig.managerURI "localhost"
             || strContainsSub c.dexConfig.managerURI "127.0.0.1" then
           ["https://localhost:9443/login/oidc/callback",
            "https://127.0.0.1:9443/login/oidc/callback",
            "https://localhost:9443/tigera-kibana/api/security/oidc/callback",
            "https://127.0.0.1:9443/tigera-kibana/api/security/oidc/callback"]
         else
           ["https://localhost:9443/login/oidc/callback",
            "https://127.0.0.1:9443/login/oidc/callback",
            "https://localhost:9443/tigera-kibana/api/security/oidc/callback",
            "https://127.0.0.1:9443/tigera-kibana/api/security/oidc/callback",
            c.dexConfig.managerURI ++ "/login/oidc/callback",
            c.dexConfig.managerURI ++ "/tigera-kibana/api/security/oidc/callback"]).map
          Yaml.str)) := by
  simp [staticClientRedirects, DexComponent.dexConfigData, yamlLookup,
    dexRedirectURIs_spec]

/-- C3. ResolveImages aggregates without short-circuiting: it errors exactly
when an attempted lookup failed; when both lookups fail (certificate
management enabled) the single error is both messages joined with ","; and
the bootstrap image is stored from its lookup even when the main lookup
failed. -/
theorem dex_resolveImages_aggregation (r : ImageResolver) (c : DexComponent) :
    ((ResolveImages r c).2.isSome =
      (isErr r.getReferenceDex
        || (c.installation.certificateManagement.isSome
            && isErr r.getReferenceCSRInit)))
    ∧ (∀ e1 e2, r.getReferenceDex = Except.error e1 →
        r.getReferenceCSRInit = Except.error e2 →
        c.installation.certificateManagement.isSome = true →
        (ResolveImages r c).2 = some (e1 ++ "," ++ e2))
    ∧ (∀ s, r.getReferenceCSRInit = Except.ok s →
        c.installation.certificateManagement.isSome = true →
        ((ResolveImages r c).1).csrInitImage = s) := by
  refine ⟨?_, ?_, ?_⟩
  · rcases hd : r.getReferenceDex with s1 | e1 <;>
      rcases hcm : c.installation.certificateManagement with _ | cm <;>
        rcases hc : r.getReferenceCSRInit with s2 | e2 <;>
          simp [ResolveImages, isErr, hd, hcm, hc]
  · intro e1 e2 hd hc hcm
    rcases hcm2 : c.installation.certificateManagement with _ | cm
    · rw [hcm2] at hcm; simp at hcm
    · simp [ResolveImages, hd, hc, hcm2, String.intercalate,
        String.intercalate.go]
  · intro s hc hcm
    rcases hcm2 : c.installation.certificateManagement with _ | cm
    · rw [hcm2] at hcm; simp at hcm
    · rcases hd : r.getReferenceDex with s1 | e1 <;>
        simp [ResolveImages, hd, hc, hcm2]

/-- C3 witness: both lookups fail against the certificate-management-enabled
renderer and the single error joins both messages; with the bootstrap lookup
succeeding, its image is stored despite the failed main lookup. -/
theorem dex_resolveImages_aggregation_witness :
    (ResolveImages rW cWcm).2 = some "no dex image,no csr image"
    ∧ ((ResolveImages rW2 cWcm).1).csrInitImage = "csr-img" :=
  ⟨(dex_resolveImages_aggregation rW cWcm).2.1 "no dex image" "no csr image"
      rfl rfl rfl,
   (dex_resolveImages_aggregation rW2 cWcm).2.2 "csr-img" rfl rfl⟩

/-- C4. Objects() has no failure path: for every freshly constructed
renderer (before ResolveImages) it returns normally with an empty deletion
list, the workload image field is the empty string, every init container
image is the empty string, and the configuration document is serialized by
the total serializer (so the panic branch of the source is unreachable). -/
theorem dex_objects_before_resolve (ps : List SecretObj) (os : Bool)
    (inst : InstallationSpec) (cfg : DexConfig) (dom : String) :
    ((Dex ps os inst cfg dom).deployment.spec.template.spec.containers.map
        (fun x => x.image)) = [""]
    ∧ ((Dex ps os inst cfg dom).deployment.spec.template.spec.initContainers.all
        (fun x => x.image == "")) = true
    ∧ (Dex ps os inst cfg dom).configMap.data =
        [("config.yaml", yamlMarshal (Dex ps os inst cfg dom).dexConfigData)]
    ∧ ((Dex ps os inst cfg dom).Objects).2 = [] := by
  refine ⟨rfl, ?_, rfl, ?_⟩
  · rcases hcm : inst.certificateManagement with _ | cm <;>
      simp [Dex, DexComponent.deployment, hcm, createCSRInitContainer]
  · rcases hcm : inst.certificateManagement with _ | cm <;>
      simp [Dex, DexComponent.Objects, hcm]

/-- C5. Toggling certificate management from disabled to enabled with all
other state fixed changes Objects() in exactly two ways: every deployment
object's pod template gains the single CSR bootstrap init container (from
an empty init-container list), and one certificate-signing-request
cluster-role-binding is appended; every other object is unchanged. -/
theorem dex_cert_toggle_frame (c : DexComponent) (cm : CertificateManagement)
    (h : c.installation.certificateManagement = none) :
    ((({ c with installation :=
          { c.installation with certificateManagement := some cm } } :
        DexComponent).Objects).1 =
      ((c.Objects).1.map (withInitContainers
          [createCSRInitContainer cm c.csrInitImage "tls" DexObjectName
            tlsPrivateKeyKey tlsCertKey
            (getServiceDNSNames DexObjectName DexNamespace c.clusterDomain)
            DexNamespace]))
        ++ [K8sObject.clusterRoleBinding
              (csrClusterRoleBinding DexObjectName DexNamespace)])
    ∧ c.deployment.spec.template.spec.initContainers = []
    ∧ (({ c with installation :=
          { c.installation with certificateManagement := some cm } } :
        DexComponent).deployment.spec.template.spec.initContainers.length = 1) := by
  refine ⟨?_, ?_, ?_⟩
  · simp only [DexComponent.Objects, List.map_append,
      toRuntimeObjects_map_withInit, h, List.map_cons, List.map_nil]
    simp [DexComponent.deployment, DexComponent.serviceAccount,
      DexComponent.service, DexComponent.clusterRole,
      DexComponent.clusterRoleBinding, DexComponent.configMap,
      DexComponent.dexConfigData, DexComponent.probe, withInitContainers, h]
  · simp [DexComponent.deployment, h]
  · simp [DexComponent.deployment]

/-- C5 witness: the frame theorem applied to the concrete minimal renderer
and a concrete certificate-management descriptor. -/
theorem dex_cert_toggle_frame_witness :
    cW0.installation.certificateManagement = none
    ∧ (({ cW0 with installation :=
          { cW0.installation with certificateManagement := some cmW } } :
        DexComponent).deployment.spec.template.spec.initContainers.length = 1) :=
  ⟨rfl, (dex_cert_toggle_frame cW0 cmW rfl).2.2⟩

/-- C6. For every renderer state the objects-to-delete sequence is empty,
so no created object ever appears in it: the two sequences are disjoint. -/
theorem dex_objects_delete_empty (c : DexComponent) (o : K8sObject) :
    (c.Objects).2 = []
    ∧ (o ∈ (c.Objects).1 → o ∉ (c.Objects).2) := by
  constructor
  · rcases hcm : c.installation.certificateManagement with _ | cm <;>
      simp [DexComponent.Objects, hcm]
  · intro _ hmem
    rcases hcm : c.installation.certificateManagement with _ | cm <;>
      simp [DexComponent.Objects, hcm] at hmem

/-- C6 witness: the service account of the concrete minimal renderer is in
the creation list and not in the (empty) deletion list. -/
theorem dex_objects_delete_empty_witness :
    K8sObject.serviceAccount cW0.serviceAccount ∈ (cW0.Objects).1
    ∧ K8sObject.serviceAccount cW0.serviceAccount ∉ (cW0.Objects).2 := by
  have hmem : K8sObject.serviceAccount cW0.serviceAccount ∈ (cW0.Objects).1 := by
    simp [cW0, Dex, instW, cfgW, DexComponent.Objects]
  exact ⟨hmem, (dex_objects_delete_empty cW0
    (K8sObject.serviceAccount cW0.serviceAccount)).2 hmem⟩

/-- C7. Objects() is deterministic and idempotent: it is a pure function of
the configured renderer state, so equal states give equal (hence
byte-identical once serialized) output. -/
theorem dex_objects_deterministic (c1 c2 : DexComponent) (h : c1 = c2) :
    c1.Objects = c2.Objects := by
  rw [h]

/-- C7 witness: determinism applied to the concrete minimal renderer. -/
theorem dex_objects_deterministic_witness : cW0.Objects = cW0.Objects :=
  dex_objects_deterministic cW0 cW0 rfl

/-- C8. Fixed identifiers: every rendered service account, cluster role,
cluster role binding, deployment, service and config map is named
"tigera-dex"; namespaced objects live in the fixed namespace; the service
exposes exactly one TCP port 5556; the container command is the fixed
argument vector; the liveness probe targets the fixed discovery endpoint. -/
theorem dex_fixed_identifiers (c : DexComponent) :
    DexObjectName = "tigera-dex"
    ∧ DexNamespace = "tigera-dex"
    ∧ c.serviceAccount.objectMeta.name = "tigera-dex"
    ∧ c.serviceAccount.objectMeta.nsp = DexNamespace
    ∧ c.clusterRole.objectMeta.name = "tigera-dex"
    ∧ c.clusterRoleBinding.objectMeta.name = "tigera-dex"
    ∧ c.deployment.objectMeta.name = "tigera-dex"
    ∧ c.deployment.objectMeta.nsp = DexNamespace
    ∧ c.service.objectMeta.name = "tigera-dex"
    ∧ c.service.objectMeta.nsp = DexNamespace
    ∧ c.configMap.objectMeta.name = "tigera-dex"
    ∧ c.configMap.objectMeta.nsp = DexNamespace
    ∧ c.service.spec.ports = [⟨"tigera-dex", 5556, 5556, "TCP"⟩]
    ∧ (c.deployment.spec.template.spec.containers.map (fun x => x.command)) =
        [["/usr/local/bin/dex", "serve", "/etc/dex/baseCfg/config.yaml"]]
    ∧ (c.deployment.spec.template.spec.containers.map
        (fun x => x.livenessProbe)) = [some c.probe]
    ∧ c.probe.path = "/dex/.well-known/openid-configuration"
    ∧ c.probe.port = 5556 :=
  ⟨rfl, rfl, rfl, rfl, rfl, rfl, rfl, rfl, rfl, rfl, rfl, rfl, rfl, rfl,
   rfl, rfl, rfl⟩

/-- Every object converted from the replicated pull secrets appears in the
creation list of Objects(). -/
theorem mem_objects_of_mem_pullcopy (c : DexComponent) (x : K8sObject)
    (hx : x ∈ toRuntimeObjects (copyToNamespace DexNamespace c.pullSecrets)) :
    x ∈ (c.Objects).1 := by
  rcases hcm : c.installation.certificateManagement with _ | cm <;>
  · simp only [DexComponent.Objects, hcm]
    simp only [List.mem_append, List.mem_cons]
    tauto

/-- C9. Each pull secret copied into the render target namespace keeps the
original's data, carries the render target namespace (distinct from the
original's when the original lives elsewhere), and is emitted by Objects();
the original value is never mutated. -/
theorem dex_pull_secret_copy (c : DexComponent) (i : Nat)
    (h : i < c.pullSecrets.length)
    (hc : i < (copyToNamespace DexNamespace c.pullSecrets).length) :
    ((copyToNamespace DexNamespace c.pullSecrets).get ⟨i, hc⟩).data =
      (c.pullSecrets.get ⟨i, h⟩).data
    ∧ ((copyToNamespace DexNamespace c.pullSecrets).get ⟨i, hc⟩).nsp =
        DexNamespace
    ∧ ((c.pullSecrets.get ⟨i, h⟩).nsp ≠ DexNamespace →
        ((copyToNamespace DexNamespace c.pullSecrets).get ⟨i, hc⟩).nsp ≠
          (c.pullSecrets.get ⟨i, h⟩).nsp)
    ∧ K8sObject.secret ((copyToNamespace DexNamespace c.pullSecrets).get
        ⟨i, hc⟩) ∈ (c.Objects).1 := by
  have hdata :
      ((copyToNamespace DexNamespace c.pullSecrets).get ⟨i, hc⟩).data =
        (c.pullSecrets.get ⟨i, h⟩).data := by
    simp [copyToNamespace]
  have hnsp :
      ((copyToNamespace DexNamespace c.pullSecrets).get ⟨i, hc⟩).nsp =
        DexNamespace := by
    simp [copyToNamespace]
  refine ⟨hdata, hnsp, ?_, ?_⟩
  · intro hne
    rw [hnsp]
    exact fun heq => hne heq.symm
  · have hmem : ((copyToNamespace DexNamespace c.pullSecrets).get ⟨i, hc⟩)
        ∈ copyToNamespace DexNamespace c.pullSecrets := List.get_mem _ _ _
    refine mem_objects_of_mem_pullcopy c _ ?_
    exact List.mem_map.mpr ⟨_, hmem, rfl⟩

/-- C9 witness: the copy theorem applied to the concrete renderer holding
one pull secret that lives in the operator namespace. -/
theorem dex_pull_secret_copy_witness :
    0 < cW1.pullSecrets.length
    ∧ (cW1.pullSecrets.get ⟨0, by decide⟩).nsp ≠ DexNamespace
    ∧ ((copyToNamespace DexNamespace cW1.pullSecrets).get ⟨0, by decide⟩).nsp =
        DexNamespace
    ∧ ((copyToNamespace DexNamespace cW1.pullSecrets).get ⟨0, by decide⟩).nsp ≠
        (cW1.pullSecrets.get ⟨0, by decide⟩).nsp
    ∧ K8sObject.secret ((copyToNamespace DexNamespace cW1.pullSecrets).get
        ⟨0, by decide⟩) ∈ (cW1.Objects).1 := by
  have hne : (cW1.pullSecrets.get ⟨0, by decide⟩).nsp ≠ DexNamespace := by
    decide
  obtain ⟨h1, h2, h3, h4⟩ :=
    dex_pull_secret_copy cW1 0 (by decide) (by decide)
  exact ⟨by decide, hne, h2, h3 hne, h4⟩

/-- C10. The rendered pod spec's tolerations are the installation's
control-plane tolerations with the fixed tolerate-master toleration
appended as the final element, so the master toleration is present even for
an empty installation-supplied list. -/
theorem dex_tolerations (c : DexComponent) :
    c.deployment.spec.template.spec.tolerations =
      c.installation.controlPlaneTolerations ++ [tolerateMaster]
    ∧ tolerateMaster ∈ c.deployment.spec.template.spec.tolerations := by
  refine ⟨rfl, ?_⟩
  show tolerateMaster ∈ c.installation.controlPlaneTolerations ++ [tolerateMaster]
  simp

end DexRender
